import Mathlib

/-!
Shallow embedding of the physical-therapy exercise recommendation engine
(`backend/app.py`): the exercise data model, the relevance filter, the
intensity classifier, the pain/mobility suitability deriver, the weighted
scoring engine, and the recommendation assembler.  Python strings are
modelled as `String`, Python floats on the scoring path as `ℚ` (every
constant on that path is an exact decimal), and Python ints as `ℤ`.
-/

/-- ASCII lowercase of a string, as the character list it denotes
(Python `str.lower()` on the ASCII names used throughout the catalog). -/
def lowerStr (s : String) : List Char :=
  s.data.map Char.toLower

/-- `prefixOf needle hay` is true when `needle` is an initial segment of `hay`. -/
def prefixOf : List Char → List Char → Bool
  | [], _ => true
  | _ :: _, [] => false
  | a :: as, b :: bs => a == b && prefixOf as bs

/-- Substring test, Python's `needle in hay` on strings: true iff `needle`
occurs contiguously in `hay` (the empty needle occurs in everything). -/
def containsSub : List Char → List Char → Bool
  | needle, [] => needle.isEmpty
  | needle, c :: rest => prefixOf needle (c :: rest) || containsSub needle rest

/-- Membership of a (lowered) character list in a set of string literals,
Python's `x in {...}` for the category/equipment sets. -/
def memStrSet (l : List Char) (names : List String) : Bool :=
  names.any (fun s => l == s.data)

structure Exercise where
  id : String
  name : String
  force : Option String
  level : String
  mechanic : Option String
  equipment : Option String
  primaryMuscles : List String
  secondaryMuscles : List String
  instructions : List String
  category : String
  images : List String
  deriving DecidableEq

structure UserProfile where
  pain_level : ℤ
  mobility_level : ℤ
  condition : String
  goals : List String
  deriving DecidableEq

structure RecommendationScore where
  exercise : Exercise
  score : ℚ
  reasons : List String
  warnings : List String
  suitability : String
  deriving DecidableEq

/-- A `{min, max, optimal}` suitability range over the 1-10 scale. -/
structure SuitabilityRange where
  min : ℤ
  max : ℤ
  optimal : List ℤ
  deriving DecidableEq

/-- Allowed category set of `filter_pt_relevant`. -/
def pt_categories : List String :=
  ["strength", "stretching", "cardio", "plyometrics",
   "strongman", "olympic weightlifting", "powerlifting"]

/-- Allowed equipment set of `filter_pt_relevant`. -/
def pt_equipment : List String :=
  ["body only", "dumbbell", "resistance band", "foam roll",
   "stability ball", "medicine ball", "kettlebell", "barbell",
   "cable", "e-z curl bar", "other"]

/-- Denied equipment set of `filter_pt_relevant`. -/
def excluded_equipment : List String :=
  ["machine", "leverage machine", "sled machine", "stepmill machine"]

/-- The category gate of `filter_pt_relevant`: an exercise is dropped when its
category is truthy (non-empty) and its lowercase form is not in `pt_categories`. -/
def category_ok (ex : Exercise) : Bool :=
  ex.category == "" || memStrSet (lowerStr ex.category) pt_categories

/-- The equipment gate of `filter_pt_relevant`: applied only when equipment is
truthy; dropped when in the denied set or outside the allowed set. -/
def equipment_ok (ex : Exercise) : Bool :=
  match ex.equipment with
  | none => true
  | some e =>
    e == "" ||
      (!(memStrSet (lowerStr e) excluded_equipment) && memStrSet (lowerStr e) pt_equipment)

/-- `filter_pt_relevant`: keep exercises passing both the category and the
equipment gate. -/
def filter_pt_relevant (exercises : List Exercise) : List Exercise :=
  exercises.filter (fun ex => category_ok ex && equipment_ok ex)

/-- `any(word in name_lower for word in words)`: does the (lowered) name
contain any of the given keywords? -/
def name_kw (words : List String) (nameLower : List Char) : Bool :=
  words.any (fun w => containsSub w.data nameLower)

/-- The source's `name_lower` local: the lowercase exercise name. -/
def name_lower (ex : Exercise) : List Char := lowerStr ex.name

/-- The source's `category_lower` local:
`exercise.category.lower() if exercise.category else ''`. -/
def category_lower (ex : Exercise) : List Char :=
  if ex.category == "" then [] else lowerStr ex.category

/-- `calculate_intensity`: first-match-wins cascade of name-keyword and
category checks, then the declared-level fallback. -/
def calculate_intensity (ex : Exercise) : String :=
  if name_kw ["jump", "explosive", "plyometric", "sprint", "burpee"] (name_lower ex)
    then "very-high"
  else if name_kw ["squat", "deadlift", "press", "pull", "push", "weight", "heavy"]
      (name_lower ex) then "high"
  else if memStrSet (category_lower ex) ["strength", "powerlifting"] then "high"
  else if name_kw ["bridge", "plank", "lunge", "step", "walk"] (name_lower ex) then "moderate"
  else if memStrSet (category_lower ex) ["cardio", "olympic weightlifting"] then "moderate"
  else if name_kw ["stretch", "gentle", "slow", "breathing"] (name_lower ex) then "low"
  else if memStrSet (category_lower ex) ["stretching", "flexibility", "mobility"] then "low"
  else if name_kw ["passive", "rest", "meditation", "mindfulness"] (name_lower ex)
    then "very-low"
  else if ex.level == "beginner" then "low"
  else if ex.level == "intermediate" then "moderate"
  else if ex.level == "advanced" then "high"
  else if ex.level == "expert" then "very-high"
  else "moderate"

/-- The `{min 1, max 10, optimal [5]}` default returned by both suitability
tables for an unrecognized intensity tier. -/
def default_range : SuitabilityRange := ⟨1, 10, [5]⟩

/-- `get_pain_suitability`: pain range from the intensity tier
(the `user_pain` argument is accepted but unused, as in the source). -/
def get_pain_suitability (ex : Exercise) (user_pain : ℤ) : SuitabilityRange :=
  if calculate_intensity ex == "very-low" then ⟨8, 10, [9, 10]⟩
  else if calculate_intensity ex == "low" then ⟨5, 10, [6, 7, 8]⟩
  else if calculate_intensity ex == "moderate" then ⟨2, 7, [3, 4, 5]⟩
  else if calculate_intensity ex == "high" then ⟨1, 4, [1, 2, 3]⟩
  else if calculate_intensity ex == "very-high" then ⟨1, 2, [1]⟩
  else default_range

/-- `get_mobility_suitability`: category special cases first, then the
intensity-tier table (the `user_mobility` argument is unused, as in the source). -/
def get_mobility_suitability (ex : Exercise) (user_mobility : ℤ) : SuitabilityRange :=
  if memStrSet (category_lower ex) ["stretching", "mobility", "flexibility"] then
    ⟨1, 10, [2, 3, 4, 5]⟩
  else if category_lower ex == "balance".data then ⟨3, 10, [4, 5, 6, 7]⟩
  else if category_lower ex == "strength".data then ⟨4, 10, [5, 6, 7, 8]⟩
  else if category_lower ex == "cardio".data then ⟨6, 10, [7, 8, 9, 10]⟩
  else if calculate_intensity ex == "very-low" then ⟨1, 10, [2, 3, 4]⟩
  else if calculate_intensity ex == "low" then ⟨2, 10, [3, 4, 5]⟩
  else if calculate_intensity ex == "moderate" then ⟨4, 10, [5, 6, 7]⟩
  else if calculate_intensity ex == "high" then ⟨6, 10, [7, 8, 9]⟩
  else if calculate_intensity ex == "very-high" then ⟨8, 10, [9, 10]⟩
  else default_range

/-- `get_therapeutic_benefits`: every applicable bucket contributes its three
benefit strings, in source order. -/
def get_therapeutic_benefits (ex : Exercise) : List String :=
  (if category_lower ex == "stretching".data || containsSub "stretch".data (name_lower ex) then
    ["improves flexibility", "reduces muscle tension", "increases range of motion"] else []) ++
  (if category_lower ex == "mobility".data || containsSub "mobility".data (name_lower ex) then
    ["enhances joint mobility", "improves movement quality", "reduces stiffness"] else []) ++
  (if category_lower ex == "strength".data || containsSub "strength".data (name_lower ex) then
    ["builds muscle strength", "improves stability", "supports joint health"] else []) ++
  (if category_lower ex == "balance".data || containsSub "balance".data (name_lower ex) then
    ["improves balance", "enhances proprioception", "reduces fall risk"] else []) ++
  (if category_lower ex == "cardio".data || containsSub "cardio".data (name_lower ex) then
    ["improves cardiovascular health", "increases endurance", "boosts energy"] else []) ++
  (if containsSub "gentle".data (name_lower ex) || containsSub "soft".data (name_lower ex) then
    ["pain relief", "muscle relaxation", "stress reduction"] else [])

/-- Result of one scoring block of `calculate_recommendation_score`:
the sub-score together with the reasons and warnings the block appends. -/
structure SubResult where
  score : ℚ
  reasons : List String
  warnings : List String
  deriving DecidableEq

/-- Pain block of `calculate_recommendation_score` (weight 0.4): 0.8 in range,
raised to 1.0 when optimal, 0.1 outside, with the matching reasons/warnings. -/
def painEval (ex : Exercise) (p : ℤ) : SubResult :=
  if (get_pain_suitability ex p).min ≤ p ∧ p ≤ (get_pain_suitability ex p).max then
    if p ∈ (get_pain_suitability ex p).optimal then
      { score := 1,
        reasons := ["Suitable for your pain level (" ++ toString p ++ "/10)",
                    "Optimal for your current pain level"],
        warnings := [] }
    else
      { score := 0.8,
        reasons := ["Suitable for your pain level (" ++ toString p ++ "/10)"],
        warnings := [] }
  else
    { score := 0.1, reasons := [],
      warnings := ["May not be suitable for your pain level (" ++ toString p ++ "/10)"] }

/-- Mobility block of `calculate_recommendation_score` (weight 0.3), same
pattern as the pain block. -/
def mobilityEval (ex : Exercise) (m : ℤ) : SubResult :=
  if (get_mobility_suitability ex m).min ≤ m ∧ m ≤ (get_mobility_suitability ex m).max then
    if m ∈ (get_mobility_suitability ex m).optimal then
      { score := 1,
        reasons := ["Appropriate for your mobility level (" ++ toString m ++ "/10)",
                    "Perfect match for your mobility level"],
        warnings := [] }
    else
      { score := 0.8,
        reasons := ["Appropriate for your mobility level (" ++ toString m ++ "/10)"],
        warnings := [] }
  else
    { score := 0.1, reasons := [],
      warnings := ["May be too challenging for your mobility level (" ++ toString m ++ "/10)"] }

/-- The condition scan: does any primary or secondary muscle match the user's
condition by case-insensitive substring containment in either direction? -/
def conditionMatches (ex : Exercise) (condition : String) : Bool :=
  (ex.primaryMuscles ++ ex.secondaryMuscles).any (fun mu =>
    containsSub (lowerStr condition) (lowerStr mu) ||
      containsSub (lowerStr mu) (lowerStr condition))

/-- Condition block of `calculate_recommendation_score` (weight 0.2):
neutral 0.5 by default, 1.0 with a reason on the first muscle match. -/
def conditionEval (ex : Exercise) (condition : String) : SubResult :=
  if conditionMatches ex condition then
    { score := 1,
      reasons := ["Specifically targets your " ++ condition ++ " condition"],
      warnings := [] }
  else
    { score := 0.5, reasons := [], warnings := [] }

/-- Benefit block of `calculate_recommendation_score` (weight 0.1):
`min(0.2 * count, 1.0)` with a count-stating reason when non-empty. -/
def benefitEval (ex : Exercise) : SubResult :=
  { score := min (((get_therapeutic_benefits ex).length : ℚ) * 0.2) 1,
    reasons :=
      if (get_therapeutic_benefits ex).isEmpty then []
      else ["Provides " ++ toString (get_therapeutic_benefits ex).length ++
            " therapeutic benefit" ++
            (if (get_therapeutic_benefits ex).length > 1 then "s" else "")],
    warnings := [] }

/-- The unrounded weighted sum accumulated by `calculate_recommendation_score`,
in exact decimal arithmetic.  The running program accumulates IEEE binary64
values instead; that bit-true accumulation is modelled separately by
`float_raw_score` below, and the two can sit on opposite sides of a suitability
threshold (the float sum for an exact 0.9 is 0.8999999999999999). -/
def raw_score (ex : Exercise) (user : UserProfile) : ℚ :=
  (painEval ex user.pain_level).score * 0.4 +
    (mobilityEval ex user.mobility_level).score * 0.3 +
    (conditionEval ex user.condition).score * 0.2 +
    (benefitEval ex).score * 0.1

/-- The suitability label thresholds applied to the unrounded score. -/
def suitabilityOf (score : ℚ) : String :=
  if score ≥ 0.9 then "excellent"
  else if score ≥ 0.7 then "good"
  else if score ≥ 0.5 then "moderate"
  else if score ≥ 0.3 then "poor"
  else "contraindicated"

/-- Python's `round(x, 2)` on the scoring path (every produced score is an
exact multiple of 1/100, so tie-breaking never fires). -/
def roundTo2 (q : ℚ) : ℚ := (round (q * 100) : ℚ) / 100

/-- `calculate_recommendation_score`: the four weighted blocks, the rounded
score, the concatenated reasons/warnings, and the threshold label, with the
numeric path in exact decimal arithmetic.  The returned rounded score agrees
with the program (the program's rounded float is the nearest double of this
N/100 value at every sub-score combination), but the label here is the
threshold of the exact sum, while the program thresholds its float sum; the
bit-true numeric path is `float_calculate_recommendation_score` below. -/
def calculate_recommendation_score (ex : Exercise) (user : UserProfile) : RecommendationScore :=
  { exercise := ex,
    score := roundTo2 (raw_score ex user),
    reasons := (painEval ex user.pain_level).reasons ++
      (mobilityEval ex user.mobility_level).reasons ++
      (conditionEval ex user.condition).reasons ++ (benefitEval ex).reasons,
    warnings := (painEval ex user.pain_level).warnings ++
      (mobilityEval ex user.mobility_level).warnings ++
      (conditionEval ex user.condition).warnings ++ (benefitEval ex).warnings,
    suitability := suitabilityOf (raw_score ex user) }

/-- Descending-score comparison used by the assembler's stable sort
(Python `sort(key=score, reverse=True)`). -/
def recGE (a b : RecommendationScore) : Prop := b.score ≤ a.score

instance : DecidableRel recGE :=
  fun a b => inferInstanceAs (Decidable (b.score ≤ a.score))

/-- `get_recommendations`: filter, score, drop contraindicated, stable sort
descending by score, truncate to `limit`. -/
def get_recommendations (exercises : List Exercise) (user : UserProfile)
    (limit : ℕ) : List RecommendationScore :=
  let pt_exercises := filter_pt_relevant exercises
  let scored_exercises := pt_exercises.map (fun ex => calculate_recommendation_score ex user)
  let safe_exercises := scored_exercises.filter (fun s => s.suitability != "contraindicated")
  (safe_exercises.insertionSort recGE).take limit

/-- The stretching restriction of `get_stretching_recommendations`:
category in the stretching family, or name containing "stretch". -/
def stretch_filter (ex : Exercise) : Bool :=
  memStrSet (category_lower ex) ["stretching", "flexibility", "mobility"] ||
    containsSub "stretch".data (name_lower ex)

/-- `get_stretching_recommendations`: relevance filter, stretching restriction,
score, drop contraindicated, stable sort descending, truncate. -/
def get_stretching_recommendations (exercises : List Exercise) (user : UserProfile)
    (limit : ℕ) : List RecommendationScore :=
  let pt_exercises := filter_pt_relevant exercises
  let stretching_exercises := pt_exercises.filter stretch_filter
  let scored_exercises := stretching_exercises.map (fun ex => calculate_recommendation_score ex user)
  let safe_exercises := scored_exercises.filter (fun s => s.suitability != "contraindicated")
  (safe_exercises.insertionSort recGE).take limit

/-!
## Derived case analyses of the scoring blocks
-/

lemma painEval_score_cases (ex : Exercise) (p : ℤ) :
    (painEval ex p).score = 0.1 ∨ (painEval ex p).score = 0.8 ∨ (painEval ex p).score = 1 := by
  unfold painEval
  split
  · split
    · right; right; rfl
    · right; left; rfl
  · left; rfl

lemma mobilityEval_score_cases (ex : Exercise) (m : ℤ) :
    (mobilityEval ex m).score = 0.1 ∨ (mobilityEval ex m).score = 0.8 ∨
      (mobilityEval ex m).score = 1 := by
  unfold mobilityEval
  split
  · split
    · right; right; rfl
    · right; left; rfl
  · left; rfl

lemma conditionEval_score_cases (ex : Exercise) (c : String) :
    (conditionEval ex c).score = 0.5 ∨ (conditionEval ex c).score = 1 := by
  unfold conditionEval
  split
  · right; rfl
  · left; rfl

lemma benefitEval_score_eq (ex : Exercise) :
    (benefitEval ex).score = min (((get_therapeutic_benefits ex).length : ℚ) * 0.2) 1 := rfl

/-!
## The produced score is an exact multiple of 1/100 between 0.17 and 1
-/

lemma pain_term_cent (ex : Exercise) (p : ℤ) :
    ∃ n : ℕ, (painEval ex p).score * 0.4 = (n : ℚ) / 100 ∧ 4 ≤ n ∧ n ≤ 40 := by
  rcases painEval_score_cases ex p with h | h | h <;> rw [h]
  · exact ⟨4, by norm_num, by norm_num, by norm_num⟩
  · exact ⟨32, by norm_num, by norm_num, by norm_num⟩
  · exact ⟨40, by norm_num, by norm_num, by norm_num⟩

lemma mobility_term_cent (ex : Exercise) (m : ℤ) :
    ∃ n : ℕ, (mobilityEval ex m).score * 0.3 = (n : ℚ) / 100 ∧ 3 ≤ n ∧ n ≤ 30 := by
  rcases mobilityEval_score_cases ex m with h | h | h <;> rw [h]
  · exact ⟨3, by norm_num, by norm_num, by norm_num⟩
  · exact ⟨24, by norm_num, by norm_num, by norm_num⟩
  · exact ⟨30, by norm_num, by norm_num, by norm_num⟩

lemma condition_term_cent (ex : Exercise) (c : String) :
    ∃ n : ℕ, (conditionEval ex c).score * 0.2 = (n : ℚ) / 100 ∧ 10 ≤ n ∧ n ≤ 20 := by
  rcases conditionEval_score_cases ex c with h | h <;> rw [h]
  · exact ⟨10, by norm_num, by norm_num, by norm_num⟩
  · exact ⟨20, by norm_num, by norm_num, by norm_num⟩

lemma benefit_term_cent (ex : Exercise) :
    ∃ n : ℕ, (benefitEval ex).score * 0.1 = (n : ℚ) / 100 ∧ n ≤ 10 := by
  rw [benefitEval_score_eq]
  by_cases h5 : 5 ≤ (get_therapeutic_benefits ex).length
  · refine ⟨10, ?_, by norm_num⟩
    have h1 : (1 : ℚ) ≤ ((get_therapeutic_benefits ex).length : ℚ) * 0.2 := by
      have : (5 : ℚ) ≤ ((get_therapeutic_benefits ex).length : ℚ) := by exact_mod_cast h5
      nlinarith
    rw [min_eq_right h1]
    norm_num
  · push_neg at h5
    set k := (get_therapeutic_benefits ex).length with hk
    interval_cases k
    · exact ⟨0, by norm_num, by norm_num⟩
    · exact ⟨2, by norm_num, by norm_num⟩
    · exact ⟨4, by norm_num, by norm_num⟩
    · exact ⟨6, by norm_num, by norm_num⟩
    · exact ⟨8, by norm_num, by norm_num⟩

lemma raw_score_cent (ex : Exercise) (user : UserProfile) :
    ∃ N : ℕ, raw_score ex user = (N : ℚ) / 100 ∧ 17 ≤ N ∧ N ≤ 100 := by
  obtain ⟨n1, h1, l1, u1⟩ := pain_term_cent ex user.pain_level
  obtain ⟨n2, h2, l2, u2⟩ := mobility_term_cent ex user.mobility_level
  obtain ⟨n3, h3, l3, u3⟩ := condition_term_cent ex user.condition
  obtain ⟨n4, h4, u4⟩ := benefit_term_cent ex
  refine ⟨n1 + n2 + n3 + n4, ?_, by omega, by omega⟩
  rw [raw_score, h1, h2, h3, h4]
  push_cast
  ring

lemma roundTo2_div100 (N : ℕ) : roundTo2 ((N : ℚ) / 100) = (N : ℚ) / 100 := by
  unfold roundTo2
  rw [div_mul_cancel₀ _ (by norm_num : (100 : ℚ) ≠ 0), round_natCast, Int.cast_natCast]

lemma calc_score_eq_raw (ex : Exercise) (user : UserProfile) :
    (calculate_recommendation_score ex user).score = raw_score ex user := by
  obtain ⟨N, hN, -, -⟩ := raw_score_cent ex user
  show roundTo2 (raw_score ex user) = raw_score ex user
  rw [hN, roundTo2_div100]

lemma calc_suitability_eq (ex : Exercise) (user : UserProfile) :
    (calculate_recommendation_score ex user).suitability =
      suitabilityOf (raw_score ex user) := rfl

lemma suitabilityOf_mem (s : ℚ) :
    suitabilityOf s ∈ ["excellent", "good", "moderate", "poor", "contraindicated"] := by
  unfold suitabilityOf
  repeat' split
  all_goals decide

/-!
## Rule-list reading of the intensity classifier
-/

/-- The declared-level fallback of the intensity classifier:
beginner, intermediate, advanced, expert, else moderate. -/
def level_fallback (level : String) : String :=
  if level == "beginner" then "low"
  else if level == "intermediate" then "moderate"
  else if level == "advanced" then "high"
  else if level == "expert" then "very-high"
  else "moderate"

/-- First-match-wins evaluation of an ordered list of (condition, tier) rules,
returning the default when no rule fires. -/
def findTier : List (Bool × String) → String → String
  | [], dflt => dflt
  | (cond, tier) :: rest, dflt => if cond then tier else findTier rest dflt

/-- The intensity rules in the order the specification lists them: keyword
checks before category checks within a tier, tiers from high to low severity. -/
def intensityRules (ex : Exercise) : List (Bool × String) :=
  [(name_kw ["jump", "explosive", "plyometric", "sprint", "burpee"] (name_lower ex), "very-high"),
   (name_kw ["squat", "deadlift", "press", "pull", "push", "weight", "heavy"] (name_lower ex),
     "high"),
   (memStrSet (lowerStr ex.category) ["strength", "powerlifting"], "high"),
   (name_kw ["bridge", "plank", "lunge", "step", "walk"] (name_lower ex), "moderate"),
   (memStrSet (lowerStr ex.category) ["cardio", "olympic weightlifting"], "moderate"),
   (name_kw ["stretch", "gentle", "slow", "breathing"] (name_lower ex), "low"),
   (memStrSet (lowerStr ex.category) ["stretching", "flexibility", "mobility"], "low"),
   (name_kw ["passive", "rest", "meditation", "mindfulness"] (name_lower ex), "very-low")]

/-- The intensity classifier as the specification words it: the ordered rule
list evaluated first-match-wins, then the declared-level fallback. -/
def intensitySpec (ex : Exercise) : String :=
  findTier (intensityRules ex) (level_fallback ex.level)

lemma category_lower_eq (ex : Exercise) : category_lower ex = lowerStr ex.category := by
  unfold category_lower
  by_cases h : ex.category = ""
  · rw [h]; decide
  · simp [h]

lemma intensity_eq_spec (ex : Exercise) : calculate_intensity ex = intensitySpec ex := by
  unfold calculate_intensity intensitySpec intensityRules
  rw [← category_lower_eq]
  rfl

lemma findTier_cons (c : Bool) (t : String) (rest : List (Bool × String)) (dflt : String) :
    findTier ((c, t) :: rest) dflt = if c then t else findTier rest dflt := rfl

lemma findTier_mem (rules : List (Bool × String)) (dflt : String) :
    findTier rules dflt = dflt ∨ findTier rules dflt ∈ rules.map Prod.snd := by
  induction rules with
  | nil => left; rfl
  | cons r rest ih =>
    obtain ⟨c, t⟩ := r
    rw [findTier_cons, List.map_cons]
    by_cases hc : c = true
    · rw [if_pos hc]
      right
      exact List.mem_cons_self _ _
    · rw [if_neg hc]
      rcases ih with h | h
      · left; exact h
      · right
        exact List.mem_cons_of_mem _ h

lemma level_fallback_mem (level : String) :
    level_fallback level ∈ ["very-low", "low", "moderate", "high", "very-high"] := by
  unfold level_fallback
  repeat' split
  all_goals decide

lemma intensity_mem (ex : Exercise) :
    calculate_intensity ex ∈ ["very-low", "low", "moderate", "high", "very-high"] := by
  rw [intensity_eq_spec]
  unfold intensitySpec
  rcases findTier_mem (intensityRules ex) (level_fallback ex.level) with h | h
  · rw [h]; exact level_fallback_mem _
  · rw [show (intensityRules ex).map Prod.snd =
        ["very-high", "high", "high", "moderate", "moderate", "low", "low", "very-low"]
        from rfl] at h
    simp only [List.mem_cons, List.not_mem_nil, or_false] at h
    rcases h with h | h | h | h | h | h | h | h <;> rw [h] <;> decide

/-!
## Well-formedness of the suitability ranges
-/

/-- Every optimal value of a suitability range lies between its min and max. -/
def rangeWF (r : SuitabilityRange) : Prop :=
  ∀ v ∈ r.optimal, r.min ≤ v ∧ v ≤ r.max

instance : DecidablePred rangeWF :=
  fun r => inferInstanceAs (Decidable (∀ v ∈ r.optimal, r.min ≤ v ∧ v ≤ r.max))

lemma pain_range_cases (ex : Exercise) (p : ℤ) :
    get_pain_suitability ex p = ⟨8, 10, [9, 10]⟩ ∨
    get_pain_suitability ex p = ⟨5, 10, [6, 7, 8]⟩ ∨
    get_pain_suitability ex p = ⟨2, 7, [3, 4, 5]⟩ ∨
    get_pain_suitability ex p = ⟨1, 4, [1, 2, 3]⟩ ∨
    get_pain_suitability ex p = ⟨1, 2, [1]⟩ ∨
    get_pain_suitability ex p = default_range := by
  unfold get_pain_suitability
  repeat' split
  all_goals decide

lemma mobility_range_cases (ex : Exercise) (m : ℤ) :
    get_mobility_suitability ex m = ⟨1, 10, [2, 3, 4, 5]⟩ ∨
    get_mobility_suitability ex m = ⟨3, 10, [4, 5, 6, 7]⟩ ∨
    get_mobility_suitability ex m = ⟨4, 10, [5, 6, 7, 8]⟩ ∨
    get_mobility_suitability ex m = ⟨6, 10, [7, 8, 9, 10]⟩ ∨
    get_mobility_suitability ex m = ⟨1, 10, [2, 3, 4]⟩ ∨
    get_mobility_suitability ex m = ⟨2, 10, [3, 4, 5]⟩ ∨
    get_mobility_suitability ex m = ⟨4, 10, [5, 6, 7]⟩ ∨
    get_mobility_suitability ex m = ⟨6, 10, [7, 8, 9]⟩ ∨
    get_mobility_suitability ex m = ⟨8, 10, [9, 10]⟩ ∨
    get_mobility_suitability ex m = default_range := by
  unfold get_mobility_suitability
  repeat' split
  all_goals decide

/-!
## Concrete records used by the witnesses
-/

/-- A strength exercise whose name triggers the "squat" keyword. -/
def squatExercise : Exercise :=
  { id := "1", name := "Barbell Back Squat", force := some "push", level := "intermediate",
    mechanic := some "compound", equipment := some "barbell",
    primaryMuscles := ["quadriceps"], secondaryMuscles := ["glutes"],
    instructions := [], category := "strength", images := [] }

/-- A profile with mid-scale pain and mobility. -/
def midProfile : UserProfile :=
  { pain_level := 5, mobility_level := 5, condition := "knee", goals := [] }

/-- A profile with an empty condition string. -/
def emptyCondProfile : UserProfile :=
  { pain_level := 5, mobility_level := 5, condition := "", goals := [] }

/-- C4: every exercise is classified into exactly one of the five intensity
tiers, and the classifier agrees with the first-match-wins ordered rule list
(name keywords before categories within a tier, tiers high to low, then the
declared-level fallback). -/
theorem spec_C4_intensity_tiers_and_order (ex : Exercise) :
    calculate_intensity ex ∈ ["very-low", "low", "moderate", "high", "very-high"] ∧
      calculate_intensity ex = intensitySpec ex :=
  ⟨intensity_mem ex, intensity_eq_spec ex⟩

/-- C5: on both the pain and the mobility axis, every produced suitability
range (and the unknown-tier default range) has min ≤ v ≤ max for each
optimal value v. -/
theorem spec_C5_range_well_formed (ex : Exercise) (p m : ℤ) :
    rangeWF (get_pain_suitability ex p) ∧ rangeWF (get_mobility_suitability ex m) ∧
      rangeWF default_range := by
  refine ⟨?_, ?_, by decide⟩
  · rcases pain_range_cases ex p with h | h | h | h | h | h <;> rw [h] <;> decide
  · rcases mobility_range_cases ex m with h | h | h | h | h | h | h | h | h | h <;>
      rw [h] <;> decide

/-- C6: the scoring function is total on every exercise and in-range profile:
it always produces a result, whose label is one of the five suitability labels
and whose score lies in [0,1]. -/
theorem spec_C6_score_total (ex : Exercise) (user : UserProfile)
    (hp1 : 1 ≤ user.pain_level) (hp2 : user.pain_level ≤ 10)
    (hm1 : 1 ≤ user.mobility_level) (hm2 : user.mobility_level ≤ 10) :
    ∃ r : RecommendationScore, calculate_recommendation_score ex user = r ∧
      r.suitability ∈ ["excellent", "good", "moderate", "poor", "contraindicated"] ∧
      0 ≤ r.score ∧ r.score ≤ 1 := by
  obtain ⟨N, hN, hlo, hhi⟩ := raw_score_cent ex user
  have hs := calc_score_eq_raw ex user
  refine ⟨calculate_recommendation_score ex user, rfl, ?_, ?_, ?_⟩
  · rw [calc_suitability_eq]
    exact suitabilityOf_mem _
  · rw [hs, hN]; positivity
  · rw [hs, hN]
    rw [div_le_one (by norm_num : (0 : ℚ) < 100)]
    exact_mod_cast hhi

theorem spec_C6_witness :
    (1 ≤ midProfile.pain_level ∧ midProfile.pain_level ≤ 10 ∧
      1 ≤ midProfile.mobility_level ∧ midProfile.mobility_level ≤ 10) ∧
    (∃ r : RecommendationScore, calculate_recommendation_score squatExercise midProfile = r ∧
      r.suitability ∈ ["excellent", "good", "moderate", "poor", "contraindicated"] ∧
      0 ≤ r.score ∧ r.score ≤ 1) :=
  ⟨⟨by decide, by decide, by decide, by decide⟩,
    spec_C6_score_total squatExercise midProfile (by decide) (by decide) (by decide) (by decide)⟩

/-- C7: with the exercise fixed, a pain level outside the pain suitability
range scores 0.1, one inside scores 0.8 (or 1.0 when optimal), so moving
from outside to inside never decreases the pain sub-score. -/
theorem spec_C7_pain_monotone (ex : Exercise) (p1 p2 : ℤ)
    (h1 : ¬((get_pain_suitability ex p1).min ≤ p1 ∧ p1 ≤ (get_pain_suitability ex p1).max))
    (h2 : (get_pain_suitability ex p2).min ≤ p2 ∧ p2 ≤ (get_pain_suitability ex p2).max) :
    (painEval ex p1).score = 0.1 ∧
      ((painEval ex p2).score = if p2 ∈ (get_pain_suitability ex p2).optimal then 1 else 0.8) ∧
      (painEval ex p1).score ≤ (painEval ex p2).score := by
  have e1 : (painEval ex p1).score = 0.1 := by
    unfold painEval
    rw [if_neg h1]
  have e2 : (painEval ex p2).score =
      if p2 ∈ (get_pain_suitability ex p2).optimal then 1 else 0.8 := by
    unfold painEval
    rw [if_pos h2]
    split <;> rfl
  refine ⟨e1, e2, ?_⟩
  rw [e1, e2]
  split <;> norm_num

theorem spec_C7_witness :
    (¬((get_pain_suitability squatExercise 9).min ≤ 9 ∧
        9 ≤ (get_pain_suitability squatExercise 9).max) ∧
      ((get_pain_suitability squatExercise 2).min ≤ 2 ∧
        2 ≤ (get_pain_suitability squatExercise 2).max)) ∧
    ((painEval squatExercise 9).score = 0.1 ∧
      ((painEval squatExercise 2).score =
        if (2 : ℤ) ∈ (get_pain_suitability squatExercise 2).optimal then 1 else 0.8) ∧
      (painEval squatExercise 9).score ≤ (painEval squatExercise 2).score) :=
  ⟨⟨by decide, by decide⟩,
    spec_C7_pain_monotone squatExercise 9 2 (by decide) (by decide)⟩

/-!
## Empty condition always matches a non-empty muscle list
-/

lemma containsSub_nil (l : List Char) : containsSub [] l = true := by
  cases l <;> simp [containsSub, prefixOf]

/-- C9: with a non-empty combined muscle list and an empty condition string,
the condition sub-score is 1.0 and the condition reason is appended (the empty
string is a substring of the first muscle name); the neutral 0.5 arises
exactly when no substring match occurs in either direction. -/
theorem spec_C9_empty_condition_matches (ex : Exercise) (user : UserProfile)
    (ex2 : Exercise) (c2 : String)
    (hmus : ex.primaryMuscles ++ ex.secondaryMuscles ≠ [])
    (hcond : user.condition = "") :
    (conditionEval ex user.condition).score = 1 ∧
      ("Specifically targets your " ++ user.condition ++ " condition") ∈
        (calculate_recommendation_score ex user).reasons ∧
      ((conditionEval ex2 c2).score = 0.5 ↔ conditionMatches ex2 c2 = false) := by
  have hm : conditionMatches ex user.condition = true := by
    rw [hcond]
    unfold conditionMatches
    obtain ⟨m, hmem⟩ := List.exists_mem_of_ne_nil _ hmus
    rw [List.any_eq_true]
    refine ⟨m, hmem, ?_⟩
    rw [Bool.or_eq_true]
    left
    exact containsSub_nil _
  refine ⟨?_, ?_, ?_⟩
  · simp [conditionEval, hm]
  · show _ ∈ _ ++ _ ++ _ ++ _
    simp [conditionEval, hm]
  · rcases hb : conditionMatches ex2 c2
    · simp [conditionEval, hb]
    · norm_num [conditionEval, hb]

theorem spec_C9_witness :
    (squatExercise.primaryMuscles ++ squatExercise.secondaryMuscles ≠ [] ∧
      emptyCondProfile.condition = "") ∧
    ((conditionEval squatExercise emptyCondProfile.condition).score = 1 ∧
      ("Specifically targets your " ++ emptyCondProfile.condition ++ " condition") ∈
        (calculate_recommendation_score squatExercise emptyCondProfile).reasons ∧
      ((conditionEval squatExercise "knee").score = 0.5 ↔
        conditionMatches squatExercise "knee" = false)) :=
  ⟨⟨by decide, by decide⟩,
    spec_C9_empty_condition_matches squatExercise emptyCondProfile squatExercise "knee"
      (by decide) (by decide)⟩

/-- C10: for every exercise and in-range profile the composite score is at
least 0.17, hence never 0 (the interval [0, 0.17) is unreachable). -/
theorem spec_C10_score_lower_bound (ex : Exercise) (user : UserProfile)
    (hp1 : 1 ≤ user.pain_level) (hp2 : user.pain_level ≤ 10)
    (hm1 : 1 ≤ user.mobility_level) (hm2 : user.mobility_level ≤ 10) :
    0.17 ≤ (calculate_recommendation_score ex user).score ∧
      (calculate_recommendation_score ex user).score ≠ 0 := by
  obtain ⟨N, hN, hlo, hhi⟩ := raw_score_cent ex user
  have hs := calc_score_eq_raw ex user
  have hN' : (17 : ℚ) ≤ (N : ℚ) := by exact_mod_cast hlo
  have h17 : (0.17 : ℚ) ≤ (N : ℚ) / 100 := by linarith
  constructor
  · rw [hs, hN]; exact h17
  · rw [hs, hN]
    intro h
    rw [h] at h17
    norm_num at h17

theorem spec_C10_witness :
    (1 ≤ midProfile.pain_level ∧ midProfile.pain_level ≤ 10 ∧
      1 ≤ midProfile.mobility_level ∧ midProfile.mobility_level ≤ 10) ∧
    (0.17 ≤ (calculate_recommendation_score squatExercise midProfile).score ∧
      (calculate_recommendation_score squatExercise midProfile).score ≠ 0) :=
  ⟨⟨by decide, by decide, by decide, by decide⟩,
    spec_C10_score_lower_bound squatExercise midProfile
      (by decide) (by decide) (by decide) (by decide)⟩

/-!
## The documented "Gentle Hamstring Stretch" scenario
-/

/-- The scenario exercise of the specification's worked example. -/
def hamstringStretch : Exercise :=
  { id := "2", name := "Gentle Hamstring Stretch", force := none, level := "beginner",
    mechanic := none, equipment := none, primaryMuscles := ["hamstrings"],
    secondaryMuscles := [], instructions := [], category := "stretching", images := [] }

/-- The scenario profile of the specification's worked example. -/
def hamstringProfile : UserProfile :=
  { pain_level := 7, mobility_level := 4, condition := "hamstring", goals := [] }

lemma hamstring_raw_score : raw_score hamstringStretch hamstringProfile = 1 := by
  unfold raw_score
  rw [show (painEval hamstringStretch hamstringProfile.pain_level).score = 1 from by decide,
    show (mobilityEval hamstringStretch hamstringProfile.mobility_level).score = 1
      from by decide,
    show (conditionEval hamstringStretch hamstringProfile.condition).score = 1 from by decide,
    benefitEval_score_eq,
    show (get_therapeutic_benefits hamstringStretch).length = 6 from by decide,
    min_eq_right (by norm_num : (1 : ℚ) ≤ (6 : ℕ) * 0.2)]
  norm_num

lemma hamstring_score : (calculate_recommendation_score hamstringStretch hamstringProfile).score = 1 := by
  rw [calc_score_eq_raw, hamstring_raw_score]

/-- C3 counterexample: on the scenario input the mobility sub-score is 1.0
(the user's mobility 4 lies in the optimal set 2-5 of the stretching-category
override), not 0.8, and the total score is 1.0, not 0.94. -/
theorem spec_C3_counterexample :
    (mobilityEval hamstringStretch 4).score = 1 ∧ (1 : ℚ) ≠ 0.8 ∧
      (calculate_recommendation_score hamstringStretch hamstringProfile).score = 1 ∧
      (1 : ℚ) ≠ 0.94 := by
  refine ⟨by decide, by norm_num, hamstring_score, by norm_num⟩

/-- C3 amended: on the scenario input the intensity is low, the pain sub-score
1.0, the mobility range is the stretching-category override {1-10, optimal
2-5} with mobility sub-score 1.0 (4 is optimal), the condition sub-score 1.0,
the 6 benefits give benefit sub-score 1.0, the total is 1.0, and the
suitability is "excellent". -/
theorem spec_C3_scenario :
    calculate_intensity hamstringStretch = "low" ∧
      (painEval hamstringStretch 7).score = 1 ∧
      get_mobility_suitability hamstringStretch 4 = ⟨1, 10, [2, 3, 4, 5]⟩ ∧
      (mobilityEval hamstringStretch 4).score = 1 ∧
      (conditionEval hamstringStretch "hamstring").score = 1 ∧
      (get_therapeutic_benefits hamstringStretch).length = 6 ∧
      (benefitEval hamstringStretch).score = 1 ∧
      (calculate_recommendation_score hamstringStretch hamstringProfile).score = 1 ∧
      (calculate_recommendation_score hamstringStretch hamstringProfile).suitability =
        "excellent" := by
  refine ⟨by decide, by decide, by decide, by decide, by decide, by decide, ?_, hamstring_score, ?_⟩
  · rw [benefitEval_score_eq,
      show (get_therapeutic_benefits hamstringStretch).length = 6 from by decide,
      min_eq_right (by norm_num : (1 : ℚ) ≤ (6 : ℕ) * 0.2)]
  · rw [calc_suitability_eq, hamstring_raw_score]
    unfold suitabilityOf
    rw [if_pos (by norm_num : (1 : ℚ) ≥ 0.9)]

/-!
## Stability and sortedness of the assembler's descending sort
-/

instance : IsTotal RecommendationScore recGE :=
  ⟨fun a b => le_total b.score a.score⟩

instance : IsTrans RecommendationScore recGE :=
  ⟨fun _ _ _ h1 h2 => le_trans h2 h1⟩

lemma filter_score_orderedInsert (q : ℚ) (a : RecommendationScore)
    (l : List RecommendationScore) :
    (List.orderedInsert recGE a l).filter (fun r => decide (r.score = q)) =
      if a.score = q then a :: l.filter (fun r => decide (r.score = q))
      else l.filter (fun r => decide (r.score = q)) := by
  rw [List.orderedInsert_eq_take_drop, List.filter_append]
  by_cases ha : a.score = q
  · rw [if_pos ha]
    have htake : (l.takeWhile fun b => decide ¬recGE a b).filter
        (fun r => decide (r.score = q)) = [] := by
      rw [List.filter_eq_nil]
      intro b hb
      have hcond := List.mem_takeWhile_imp hb
      simp only [decide_eq_true_eq] at hcond ⊢
      intro hbq
      apply hcond
      show b.score ≤ a.score
      rw [hbq, ha]
    rw [htake, List.nil_append, List.filter_cons,
      if_pos (by simpa using ha : decide (a.score = q) = true)]
    have hl : l.filter (fun r => decide (r.score = q)) =
        (l.dropWhile fun b => decide ¬recGE a b).filter (fun r => decide (r.score = q)) := by
      conv_lhs => rw [← List.takeWhile_append_dropWhile
        (fun b => decide ¬recGE a b) l]
      rw [List.filter_append, htake, List.nil_append]
    rw [hl]
  · rw [if_neg ha, List.filter_cons,
      if_neg (by simpa using ha : ¬decide (a.score = q) = true),
      ← List.filter_append, List.takeWhile_append_dropWhile]

lemma filter_score_insertionSort (q : ℚ) (l : List RecommendationScore) :
    (l.insertionSort recGE).filter (fun r => decide (r.score = q)) =
      l.filter (fun r => decide (r.score = q)) := by
  induction l with
  | nil => rfl
  | cons x xs ih =>
    show (List.orderedInsert recGE x (xs.insertionSort recGE)).filter _ = _
    rw [filter_score_orderedInsert, List.filter_cons]
    by_cases hx : x.score = q
    · rw [if_pos hx, if_pos (by simpa using hx : decide (x.score = q) = true), ih]
    · rw [if_neg hx, if_neg (by simpa using hx : ¬decide (x.score = q) = true), ih]

/-- The scored, contraindicated-free list that `get_recommendations` sorts:
relevance filter, then score, then drop contraindicated entries. -/
def scored_safe (exercises : List Exercise) (user : UserProfile) :
    List RecommendationScore :=
  ((filter_pt_relevant exercises).map (fun ex => calculate_recommendation_score ex user)).filter
    (fun s => s.suitability != "contraindicated")

lemma get_recommendations_eq (exercises : List Exercise) (user : UserProfile) (limit : ℕ) :
    get_recommendations exercises user limit =
      ((scored_safe exercises user).insertionSort recGE).take limit := rfl

/-- The C2 guarantee bundle for one query: at most `limit` results, none
contraindicated, descending by score, and ties kept in the traversal order of
the scored list (the returned entries with any given score are an initial
segment of the equal-score entries of the unsorted safe list). -/
def recommendationsOk (exercises : List Exercise) (user : UserProfile) (limit : ℕ) : Prop :=
  (get_recommendations exercises user limit).length ≤ limit ∧
  (∀ r ∈ get_recommendations exercises user limit, r.suitability ≠ "contraindicated") ∧
  List.Sorted recGE (get_recommendations exercises user limit) ∧
  ∀ q : ℚ, ∃ t, (scored_safe exercises user).filter (fun r => decide (r.score = q)) =
    (get_recommendations exercises user limit).filter (fun r => decide (r.score = q)) ++ t

/-- C2: `get_recommendations` returns at most `limit` entries, none of them
contraindicated, sorted in descending score order with ties preserving the
traversal order of the relevance-filtered scored list (stable sort). -/
theorem spec_C2_recommendations_shape (exercises : List Exercise) (user : UserProfile)
    (limit : ℕ)
    (hp1 : 1 ≤ user.pain_level) (hp2 : user.pain_level ≤ 10)
    (hm1 : 1 ≤ user.mobility_level) (hm2 : user.mobility_level ≤ 10) :
    recommendationsOk exercises user limit := by
  refine ⟨?_, ?_, ?_, ?_⟩
  · rw [get_recommendations_eq]
    exact List.length_take_le _ _
  · intro r hr
    rw [get_recommendations_eq] at hr
    have h1 : r ∈ (scored_safe exercises user).insertionSort recGE :=
      (List.take_sublist _ _).subset hr
    have h2 : r ∈ scored_safe exercises user :=
      (List.perm_insertionSort recGE _).subset h1
    have h3 := (List.mem_filter.mp h2).2
    simpa using h3
  · rw [get_recommendations_eq]
    exact List.Pairwise.sublist (List.take_sublist _ _)
      (List.sorted_insertionSort recGE _)
  · intro q
    refine ⟨(((scored_safe exercises user).insertionSort recGE).drop limit).filter
      (fun r => decide (r.score = q)), ?_⟩
    rw [get_recommendations_eq, ← List.filter_append, List.take_append_drop]
    exact (filter_score_insertionSort q _).symm

theorem spec_C2_witness :
    (1 ≤ midProfile.pain_level ∧ midProfile.pain_level ≤ 10 ∧
      1 ≤ midProfile.mobility_level ∧ midProfile.mobility_level ≤ 10) ∧
    recommendationsOk [squatExercise, hamstringStretch] midProfile 10 :=
  ⟨⟨by decide, by decide, by decide, by decide⟩,
    spec_C2_recommendations_shape [squatExercise, hamstringStretch] midProfile 10
      (by decide) (by decide) (by decide) (by decide)⟩

/-!
## Categories reachable from the stretching query
-/

lemma memStrSet_elim {l : List Char} {names : List String} (h : memStrSet l names = true) :
    ∃ s ∈ names, l = s.data := by
  unfold memStrSet at h
  rw [List.any_eq_true] at h
  obtain ⟨s, hs, he⟩ := h
  exact ⟨s, hs, eq_of_beq he⟩

lemma pt_cat_not_flex {l : List Char} (h : memStrSet l pt_categories = true) :
    l ≠ "flexibility".data ∧ l ≠ "mobility".data := by
  obtain ⟨s, hs, he⟩ := memStrSet_elim h
  subst he
  fin_cases hs <;> exact ⟨by decide, by decide⟩

/-- What C8 asserts of one returned entry: its category is neither
"flexibility" nor "mobility" (case-insensitively), and it is either in the
"stretching" category, has an empty category, or was selected by the
"stretch" name keyword inside an allowed relevance category. -/
def stretchEntryOk (r : RecommendationScore) : Prop :=
  lowerStr r.exercise.category ≠ "flexibility".data ∧
  lowerStr r.exercise.category ≠ "mobility".data ∧
  (lowerStr r.exercise.category = "stretching".data ∨ r.exercise.category = "" ∨
    (containsSub "stretch".data (lowerStr r.exercise.name) = true ∧
      memStrSet (lowerStr r.exercise.category) pt_categories = true))

/-- The scored, contraindicated-free list of the stretching query. -/
def stretch_scored_safe (exercises : List Exercise) (user : UserProfile) :
    List RecommendationScore :=
  (((filter_pt_relevant exercises).filter stretch_filter).map
    (fun ex => calculate_recommendation_score ex user)).filter
    (fun s => s.suitability != "contraindicated")

lemma get_stretching_eq (exercises : List Exercise) (user : UserProfile) (limit : ℕ) :
    get_stretching_recommendations exercises user limit =
      ((stretch_scored_safe exercises user).insertionSort recGE).take limit := rfl

/-- The C8 guarantee bundle: every returned stretching entry satisfies
`stretchEntryOk`. -/
def stretchRecsOk (exercises : List Exercise) (user : UserProfile) (limit : ℕ) : Prop :=
  ∀ r ∈ get_stretching_recommendations exercises user limit, stretchEntryOk r

/-- C8: `get_stretching_recommendations` never returns an exercise of category
"flexibility" or "mobility": the relevance filter runs first and only lets
through the allowed categories (or an empty one), so each returned entry has
category "stretching", an empty category, or a name containing "stretch"
within an allowed category. -/
theorem spec_C8_stretching_categories (exercises : List Exercise) (user : UserProfile)
    (limit : ℕ)
    (hp1 : 1 ≤ user.pain_level) (hp2 : user.pain_level ≤ 10)
    (hm1 : 1 ≤ user.mobility_level) (hm2 : user.mobility_level ≤ 10) :
    stretchRecsOk exercises user limit := by
  intro r hr
  rw [get_stretching_eq] at hr
  have h1 : r ∈ (stretch_scored_safe exercises user).insertionSort recGE :=
    (List.take_sublist _ _).subset hr
  have h2 : r ∈ stretch_scored_safe exercises user :=
    (List.perm_insertionSort recGE _).subset h1
  obtain ⟨h3, -⟩ := List.mem_filter.mp h2
  obtain ⟨ex, hex, hcalc⟩ := List.mem_map.mp h3
  obtain ⟨hpt, hst⟩ := List.mem_filter.mp hex
  have hgates := (List.mem_filter.mp hpt).2
  rw [Bool.and_eq_true] at hgates
  have hcat : category_ok ex = true := hgates.1
  subst hcalc
  unfold stretchEntryOk
  rw [show (calculate_recommendation_score ex user).exercise = ex from rfl]
  unfold category_ok at hcat
  rw [Bool.or_eq_true] at hcat
  unfold stretch_filter at hst
  rw [Bool.or_eq_true] at hst
  rcases hcat with hempty | hmem
  · have he : ex.category = "" := eq_of_beq hempty
    rw [he]
    exact ⟨by decide, by decide, Or.inr (Or.inl rfl)⟩
  · obtain ⟨hnf, hnm⟩ := pt_cat_not_flex hmem
    refine ⟨hnf, hnm, ?_⟩
    rcases hst with hst1 | hst2
    · rw [show category_lower ex = lowerStr ex.category from category_lower_eq ex] at hst1
      obtain ⟨s, hs, he⟩ := memStrSet_elim hst1
      fin_cases hs
      · exact Or.inl he
      · exact absurd he hnf
      · exact absurd he hnm
    · right; right
      exact ⟨hst2, hmem⟩

theorem spec_C8_witness :
    (1 ≤ midProfile.pain_level ∧ midProfile.pain_level ≤ 10 ∧
      1 ≤ midProfile.mobility_level ∧ midProfile.mobility_level ≤ 10) ∧
    stretchRecsOk [squatExercise, hamstringStretch] midProfile 8 :=
  ⟨⟨by decide, by decide, by decide, by decide⟩,
    spec_C8_stretching_categories [squatExercise, hamstringStretch] midProfile 8
      (by decide) (by decide) (by decide) (by decide)⟩

/-!
## Bit-true IEEE binary64 model of the scoring path

The running program accumulates the score in Python floats (IEEE binary64)
and applies the suitability thresholds to that unrounded float sum.  Every
value occurring on this path is a dyadic rational in the normal range, so
binary64 arithmetic is modelled exactly over ℚ: `fl` rounds a rational to 53
significant bits with round-to-nearest, ties-to-even, and each operation is
`fl` of the exact result.  Only kernel-computable primitives are used
(`mkRat`, integer arithmetic, order comparisons), so concrete runs evaluate
by `decide`.
-/

/-- Exact rational addition via `mkRat` (kernel-computable). -/
def qadd (a b : ℚ) : ℚ := mkRat (a.num * b.den + b.num * a.den) (a.den * b.den)

/-- Exact rational subtraction via `mkRat` (kernel-computable). -/
def qsub (a b : ℚ) : ℚ := mkRat (a.num * b.den - b.num * a.den) (a.den * b.den)

/-- Exact rational multiplication via `mkRat` (kernel-computable). -/
def qmul (a b : ℚ) : ℚ := mkRat (a.num * b.num) (a.den * b.den)

/-- Two-argument minimum, Python's `min(a, b)`. -/
def qmin (a b : ℚ) : ℚ := if a ≤ b then a else b

/-- The rational 2^e for an integer exponent. -/
def pow2 (e : ℤ) : ℚ :=
  if 0 ≤ e then mkRat ((2 : ℤ) ^ e.toNat) 1 else mkRat 1 (2 ^ (-e).toNat)

/-- Exact division of a rational by 2^e. -/
def qdivpow2 (q : ℚ) (e : ℤ) : ℚ :=
  if 0 ≤ e then mkRat q.num (q.den * 2 ^ e.toNat)
  else mkRat (q.num * (2 : ℤ) ^ (-e).toNat) q.den

/-- Fuel-bounded upward search for the binary exponent (used when 1 ≤ q). -/
def flog2up : ℕ → ℚ → ℤ → ℤ
  | 0, _, e => e
  | fuel + 1, q, e => if q < pow2 (e + 1) then e else flog2up fuel q (e + 1)

/-- Fuel-bounded downward search for the binary exponent (used when q < 1). -/
def flog2down : ℕ → ℚ → ℤ → ℤ
  | 0, _, e => e
  | fuel + 1, q, e => if pow2 e ≤ q then e else flog2down fuel q (e - 1)

/-- The floor of log2 of a positive rational; the fuel 1100 covers the whole
binary64 exponent range. -/
def flog2 (q : ℚ) : ℤ :=
  if 1 ≤ q then flog2up 1100 q 0 else flog2down 1100 q 0

/-- Floor of a rational as an integer, via floor division of num by den. -/
def qfloor (x : ℚ) : ℤ := Int.fdiv x.num (x.den : ℤ)

/-- Round a rational to the nearest integer, ties to even. -/
def rne (x : ℚ) : ℤ :=
  if qsub x (mkRat (qfloor x) 1) < mkRat 1 2 then qfloor x
  else if mkRat 1 2 < qsub x (mkRat (qfloor x) 1) then qfloor x + 1
  else if qfloor x % 2 = 0 then qfloor x else qfloor x + 1

/-- Round a rational to the nearest binary64 double (53 significant bits,
round-to-nearest ties-to-even); exact for the normal range, which covers every
value arising on the scoring path. -/
def fl (q : ℚ) : ℚ :=
  if q = 0 then 0
  else qmul (mkRat (rne (qdivpow2 q (flog2 (if q < 0 then -q else q) - 52))) 1)
    (pow2 (flog2 (if q < 0 then -q else q) - 52))

/-- Correctly-rounded binary64 addition of two doubles. -/
def fadd (a b : ℚ) : ℚ := fl (qadd a b)

/-- Correctly-rounded binary64 multiplication of two doubles. -/
def fmul (a b : ℚ) : ℚ := fl (qmul a b)

/-- The double denoted by the decimal literal n/d in the source
(e.g. `float_lit 4 10` is the Python literal `0.4`). -/
def float_lit (n : ℤ) (d : ℕ) : ℚ := fl (mkRat n d)

/-- The pain sub-score as the program's doubles: the literals 0.8 and 0.1 are
the doubles nearest those decimals; 1.0 is exact. -/
def float_pain_score (ex : Exercise) (p : ℤ) : ℚ :=
  if (get_pain_suitability ex p).min ≤ p ∧ p ≤ (get_pain_suitability ex p).max then
    if p ∈ (get_pain_suitability ex p).optimal then 1 else float_lit 8 10
  else float_lit 1 10

/-- The mobility sub-score as the program's doubles. -/
def float_mobility_score (ex : Exercise) (m : ℤ) : ℚ :=
  if (get_mobility_suitability ex m).min ≤ m ∧ m ≤ (get_mobility_suitability ex m).max then
    if m ∈ (get_mobility_suitability ex m).optimal then 1 else float_lit 8 10
  else float_lit 1 10

/-- The condition sub-score as the program's doubles (0.5 is exact). -/
def float_condition_score (ex : Exercise) (condition : String) : ℚ :=
  if conditionMatches ex condition then 1 else float_lit 5 10

/-- The benefit sub-score as the program's doubles:
`min(len(benefits) * 0.2, 1.0)` with float multiplication. -/
def float_benefit_score (ex : Exercise) : ℚ :=
  qmin (fmul (mkRat ((get_therapeutic_benefits ex).length : ℤ) 1) (float_lit 2 10)) 1

/-- The program's accumulated float sum: `score = 0.0` followed by the four
`score += sub * weight` float operations, in source order. -/
def float_raw_score (ex : Exercise) (user : UserProfile) : ℚ :=
  fadd (fadd (fadd (fadd 0 (fmul (float_pain_score ex user.pain_level) (float_lit 4 10)))
    (fmul (float_mobility_score ex user.mobility_level) (float_lit 3 10)))
    (fmul (float_condition_score ex user.condition) (float_lit 2 10)))
    (fmul (float_benefit_score ex) (float_lit 1 10))

/-- The threshold cascade as the program executes it: float comparisons of the
unrounded sum against the doubles denoted by 0.9, 0.7, 0.5, 0.3. -/
def float_suitabilityOf (s : ℚ) : String :=
  if float_lit 9 10 ≤ s then "excellent"
  else if float_lit 7 10 ≤ s then "good"
  else if float_lit 5 10 ≤ s then "moderate"
  else if float_lit 3 10 ≤ s then "poor"
  else "contraindicated"

/-- Python's `round(x, 2)` on a double: the nearest hundredth (ties to even),
returned as the nearest double. -/
def float_round2 (x : ℚ) : ℚ := fl (mkRat (rne (qmul x (mkRat 100 1))) 100)

/-- The numeric outcome of `calculate_recommendation_score` as the program
computes it: the rounded float score together with the label thresholded from
the unrounded float sum. -/
def float_calculate_recommendation_score (ex : Exercise) (user : UserProfile) : ℚ × String :=
  (float_round2 (float_raw_score ex user), float_suitabilityOf (float_raw_score ex user))

/-- The scenario profile with a condition matching no muscle. -/
def kneeProfile : UserProfile :=
  { pain_level := 7, mobility_level := 4, condition := "knee", goals := [] }

set_option maxRecDepth 100000 in
/-- C1 counterexample: at the Gentle Hamstring Stretch with profile (pain 7,
mobility 4, condition "knee") the float sum is 0.8999999999999999, so the
program labels the result "good" while returning the rounded score 0.9 (the
double nearest 9/10), whose threshold label is "excellent": the suitability
label is not the threshold function of the returned score. -/
theorem spec_C1_counterexample :
    (float_calculate_recommendation_score hamstringStretch kneeProfile).2 = "good" ∧
      (float_calculate_recommendation_score hamstringStretch kneeProfile).1 = float_lit 9 10 ∧
      float_suitabilityOf
        (float_calculate_recommendation_score hamstringStretch kneeProfile).1 = "excellent" ∧
      ("good" : String) ≠ "excellent" := by
  refine ⟨by decide, by decide, by decide, by decide⟩

lemma float_pain_cases (ex : Exercise) (p : ℤ) :
    float_pain_score ex p = float_lit 1 10 ∨ float_pain_score ex p = float_lit 8 10 ∨
      float_pain_score ex p = 1 := by
  unfold float_pain_score
  split
  · split
    · right; right; rfl
    · right; left; rfl
  · left; rfl

lemma float_mobility_cases (ex : Exercise) (m : ℤ) :
    float_mobility_score ex m = float_lit 1 10 ∨ float_mobility_score ex m = float_lit 8 10 ∨
      float_mobility_score ex m = 1 := by
  unfold float_mobility_score
  split
  · split
    · right; right; rfl
    · right; left; rfl
  · left; rfl

lemma float_condition_cases (ex : Exercise) (c : String) :
    float_condition_score ex c = float_lit 5 10 ∨ float_condition_score ex c = 1 := by
  unfold float_condition_score
  split
  · right; rfl
  · left; rfl

lemma benefits_len_cases (ex : Exercise) :
    (get_therapeutic_benefits ex).length = 0 ∨ (get_therapeutic_benefits ex).length = 3 ∨
    (get_therapeutic_benefits ex).length = 6 ∨ (get_therapeutic_benefits ex).length = 9 ∨
    (get_therapeutic_benefits ex).length = 12 ∨ (get_therapeutic_benefits ex).length = 15 ∨
    (get_therapeutic_benefits ex).length = 18 := by
  unfold get_therapeutic_benefits
  repeat' split
  all_goals decide

set_option maxRecDepth 100000 in
lemma float_benefit_cases (ex : Exercise) :
    float_benefit_score ex = 0 ∨
      float_benefit_score ex = fmul (mkRat 3 1) (float_lit 2 10) ∨
      float_benefit_score ex = 1 := by
  unfold float_benefit_score
  rcases benefits_len_cases ex with h | h | h | h | h | h | h <;> rw [h] <;> decide

lemma float_suitabilityOf_mem (s : ℚ) :
    float_suitabilityOf s ∈ ["excellent", "good", "moderate", "poor", "contraindicated"] := by
  unfold float_suitabilityOf
  repeat' split
  all_goals decide

set_option maxRecDepth 1000000 in
lemma float_round2_bounds (ex : Exercise) (user : UserProfile) :
    0 ≤ float_round2 (float_raw_score ex user) ∧
      float_round2 (float_raw_score ex user) ≤ 1 := by
  unfold float_raw_score
  rcases float_pain_cases ex user.pain_level with hp | hp | hp <;> rw [hp] <;>
  rcases float_mobility_cases ex user.mobility_level with hm | hm | hm <;> rw [hm] <;>
  rcases float_condition_cases ex user.condition with hc | hc <;> rw [hc] <;>
  rcases float_benefit_cases ex with hb | hb | hb <;> rw [hb] <;>
  exact ⟨by decide, by decide⟩

set_option maxRecDepth 1000000 in
/-- C1 amended: for every exercise and in-range profile the returned score
lies in [0,1], and the suitability label is the fixed threshold function of the
unrounded floating-point sum from which the returned score is rounded (one of
the five labels); it can differ from the thresholds applied to the returned
two-decimal score when the rounding crosses a threshold. -/
theorem spec_C1_amended (ex : Exercise) (user : UserProfile)
    (hp1 : 1 ≤ user.pain_level) (hp2 : user.pain_level ≤ 10)
    (hm1 : 1 ≤ user.mobility_level) (hm2 : user.mobility_level ≤ 10) :
    0 ≤ float_round2 (float_raw_score ex user) ∧
      float_round2 (float_raw_score ex user) ≤ 1 ∧
      float_calculate_recommendation_score ex user =
        (float_round2 (float_raw_score ex user),
          float_suitabilityOf (float_raw_score ex user)) ∧
      float_suitabilityOf (float_raw_score ex user) ∈
        ["excellent", "good", "moderate", "poor", "contraindicated"] :=
  ⟨(float_round2_bounds ex user).1, (float_round2_bounds ex user).2, rfl,
    float_suitabilityOf_mem _⟩

set_option maxRecDepth 1000000 in
theorem spec_C1_amended_witness :
    (1 ≤ kneeProfile.pain_level ∧ kneeProfile.pain_level ≤ 10 ∧
      1 ≤ kneeProfile.mobility_level ∧ kneeProfile.mobility_level ≤ 10) ∧
    (0 ≤ float_round2 (float_raw_score hamstringStretch kneeProfile) ∧
      float_round2 (float_raw_score hamstringStretch kneeProfile) ≤ 1 ∧
      float_calculate_recommendation_score hamstringStretch kneeProfile =
        (float_round2 (float_raw_score hamstringStretch kneeProfile),
          float_suitabilityOf (float_raw_score hamstringStretch kneeProfile)) ∧
      float_suitabilityOf (float_raw_score hamstringStretch kneeProfile) ∈
        ["excellent", "good", "moderate", "poor", "contraindicated"]) :=
  ⟨⟨by decide, by decide, by decide, by decide⟩,
    spec_C1_amended hamstringStretch kneeProfile
      (by decide) (by decide) (by decide) (by decide)⟩
